import Mathlib

/-!
Verification of the sport-yolo video-processing pipeline.

Shallow embedding of:
- `src/app/models/yolo_detector.py` (`SportsDetector`): detection-result
  extraction, role classification, annotation drawing;
- `src/app/utils/videoprocessor.py` (`VideoProcessor.process_video`):
  the frame loop, metrics, resource handling;
- `src/app/main.py` (`detect_objects_video`): upload validation.

Frames and the YOLO model call are opaque: a frame is a type parameter, the
model call is a function `Frame → Except String (List RawBox)` (raising =
`.error`). Machine floats are modelled as rationals; wall-clock readings are
environment-supplied rationals.
-/

namespace SportYolo

/-- One raw box produced by the YOLO model for a frame:
`result.boxes.xyxy / conf / cls` entries (yolo_detector.py lines 74-76). -/
structure RawBox where
  x1 : ℚ
  y1 : ℚ
  x2 : ℚ
  y2 : ℚ
  conf : ℚ
  cls_id : ℕ
deriving DecidableEq, Repr

/-- One detection dictionary built by `detect_frame`
(yolo_detector.py lines 83-98). The Python key `class` is `class_name` here. -/
structure Detection where
  id : ℕ
  class_name : String
  class_id : ℕ
  confidence : ℚ
  bbox : ℚ × ℚ × ℚ × ℚ
  center : ℚ × ℚ
  area : ℚ
  sports_role : Option String
deriving DecidableEq, Repr

/-- `SportsDetector.sports_classes` (yolo_detector.py lines 25-30). -/
def sports_classes : List (ℕ × String) :=
  [(0, "person"), (32, "sports ball"), (36, "skis"), (37, "snowboard")]

/-- `SportsDetector.confidence_threshold = 0.5` (yolo_detector.py line 33). -/
def confidence_threshold : ℚ := 1 / 2

/-- The filter `if cls_id in self.sports_classes or cls_id == 0`
(yolo_detector.py line 80). -/
def is_sports_class (cls_id : ℕ) : Bool :=
  sports_classes.any (fun p => p.1 == cls_id) || cls_id == 0

/-- `SportsDetector._classify_person_role` (yolo_detector.py lines 122-146):
reads only the detection's `area`. -/
def _classify_person_role (detection : Detection) : String :=
  let area := detection.area
  if area > 5000 then "player"
  else if area > 2000 then "referee_or_coach"
  else "spectator_or_other"

/-- The detection dictionary as first constructed (yolo_detector.py
lines 83-91), before the `sports_role` key may be added. -/
def mkDetection (names : ℕ → String) (i : ℕ) (b : RawBox) : Detection :=
  { id := i
    class_name := names b.cls_id
    class_id := b.cls_id
    confidence := b.conf
    bbox := (b.x1, b.y1, b.x2, b.y2)
    center := ((b.x1 + b.x2) / 2, (b.y1 + b.y2) / 2)
    area := (b.x2 - b.x1) * (b.y2 - b.y1)
    sports_role := none }

/-- The body of the extraction loop for one enumerated box
(yolo_detector.py lines 78-99): filter on sports classes, build the
dictionary, tag persons and the ball with a `sports_role`. -/
def detect_one (names : ℕ → String) (i : ℕ) (b : RawBox) : Option Detection :=
  if is_sports_class b.cls_id then
    let detection := mkDetection names i b
    let detection :=
      if b.cls_id == 0 then
        { detection with sports_role := some (_classify_person_role detection) }
      else if b.cls_id == 32 then
        { detection with sports_role := some "ball" }
      else detection
    some detection
  else none

/-- The full extraction loop over the enumerated raw boxes
(yolo_detector.py lines 78-99). -/
def extract_detections (names : ℕ → String) (boxes : List RawBox) : List Detection :=
  boxes.enum.filterMap (fun p => detect_one names p.1 p.2)

/-- The dictionary returned by `SportsDetector.detect_frame`: on success the
keys `detections`, `inference_time`, `frame_shape`, `model_confidence`
(lines 107-112); on an internal exception the keys `detections` (empty),
`inference_time`, `error` (lines 116-120). Absent keys are `none`. -/
structure DetectFrameResult where
  detections : List Detection
  inference_time : ℚ
  frame_shape : Option (ℕ × ℕ × ℕ)
  model_confidence : Option ℚ
  error : Option String
deriving DecidableEq, Repr

/-- `SportsDetector.detect_frame` (yolo_detector.py lines 46-120). The whole
body is wrapped in try/except, so a raising model call (`.error e`) is turned
into a returned dictionary, never propagated. `t` is the measured wall-clock
inference time; `shape` is `frame.shape`. -/
def detect_frame (names : ℕ → String) (shape : ℕ × ℕ × ℕ) (t : ℚ)
    (modelOut : Except String (List RawBox)) : DetectFrameResult :=
  match modelOut with
  | .ok boxes =>
      { detections := extract_detections names boxes
        inference_time := t
        frame_shape := some shape
        model_confidence := some confidence_threshold
        error := none }
  | .error e =>
      { detections := []
        inference_time := t
        frame_shape := none
        model_confidence := none
        error := some e }

/-! ## Annotator (`SportsDetector.draw_detections`, yolo_detector.py 148-208)

The frame raster is opaque; the annotator is embedded as the sequence of
drawing primitives it issues. `cv2.getTextSize(label, FONT, 0.5, 2)[0]` is an
external font-metrics call, modelled as an opaque function
`ts : String → ℤ × ℤ` returning (text width, text height). -/

/-- One cv2 drawing call issued by `draw_detections`. A `thickness` of -1 is
cv2's filled-rectangle convention. -/
inductive DrawOp where
  | rect (p1 : ℤ × ℤ) (p2 : ℤ × ℤ) (color : ℕ × ℕ × ℕ) (thickness : ℤ)
  | text (s : String) (org : ℤ × ℤ) (color : ℕ × ℕ × ℕ)
deriving DecidableEq, Repr

/-- The class-keyed palette `colors` with its `default` entry
(yolo_detector.py lines 162-166, `colors.get(class_name, colors["default"])`). -/
def colors (class_name : String) : ℕ × ℕ × ℕ :=
  if class_name = "person" then (0, 255, 0)
  else if class_name = "sports ball" then (0, 0, 255)
  else (255, 255, 0)

/-- Python `int()` on an exact numeric value: truncation toward zero. -/
def pyInt (q : ℚ) : ℤ := q.num / (q.den : ℤ)

/-- Rounding half to even, the tie rule of Python fixed-point formatting. -/
def round_half_even (q : ℚ) : ℤ :=
  if q - ⌊q⌋ < 1 / 2 then ⌊q⌋
  else if q - ⌊q⌋ > 1 / 2 then ⌊q⌋ + 1
  else if ⌊q⌋ % 2 = 0 then ⌊q⌋ else ⌊q⌋ + 1

/-- Python `"{:.2f}".format` on an exact value: two fixed decimals. -/
def fmt2 (q : ℚ) : String :=
  let n := round_half_even (q * 100)
  let sign := if n < 0 then "-" else ""
  let ip := n.natAbs / 100
  let fp := n.natAbs % 100
  let fpStr := if fp < 10 then "0" ++ toString fp else toString fp
  sign ++ toString ip ++ "." ++ fpStr

/-- The label text `f"{class_name}: {confidence:.2f}"`, suffixed with
`f" ({det['sports_role']})"` when the role key is present
(yolo_detector.py lines 180-182). -/
def detection_label (d : Detection) : String :=
  let label := d.class_name ++ ": " ++ fmt2 d.confidence
  match d.sports_role with
  | some role => label ++ " (" ++ role ++ ")"
  | none => label

/-- `y1` of the box as drawn: `x1, y1, x2, y2 = map(int, bbox)` (line 173). -/
def bbox_y1 (d : Detection) : ℤ := pyInt d.bbox.2.1

/-- `label_size[1]`: the height of the rendered label text. -/
def label_text_height (ts : String → ℤ × ℤ) (d : Detection) : ℤ :=
  (ts (detection_label d)).2

/-- `label_y = max(y1 - 10, label_size[1])` (yolo_detector.py line 186):
the text baseline, clamped to at least the text height. -/
def label_baseline_y (ts : String → ℤ × ℤ) (d : Detection) : ℤ :=
  max (bbox_y1 d - 10) (label_text_height ts d)

/-- Top edge of the filled label-background rectangle:
`label_y - label_size[1] - 5` (yolo_detector.py line 191). -/
def label_bg_top_y (ts : String → ℤ × ℤ) (d : Detection) : ℤ :=
  label_baseline_y ts d - label_text_height ts d - 5

/-- Top row of the label glyphs themselves: the text of height
`label_size[1]` is drawn upward from the baseline `label_y`. -/
def label_text_top_y (ts : String → ℤ × ℤ) (d : Detection) : ℤ :=
  label_baseline_y ts d - label_text_height ts d

/-- The three cv2 calls issued for one detection (yolo_detector.py
lines 168-206): bounding-box rectangle, filled label background, label text. -/
def draw_one (ts : String → ℤ × ℤ) (d : Detection) : List DrawOp :=
  let x1 := pyInt d.bbox.1
  let y1 := bbox_y1 d
  let x2 := pyInt d.bbox.2.2.1
  let y2 := pyInt d.bbox.2.2.2
  let color := colors d.class_name
  let label := detection_label d
  let label_w := (ts label).1
  let label_y := label_baseline_y ts d
  [ DrawOp.rect (x1, y1) (x2, y2) color 2,
    DrawOp.rect (x1, label_bg_top_y ts d) (x1 + label_w, label_y + 5) color (-1),
    DrawOp.text label (x1, label_y) (255, 255, 255) ]

/-- `SportsDetector.draw_detections` as the concatenated trace of drawing
primitives, one triple per detection in order (yolo_detector.py line 168). -/
def draw_detections (ts : String → ℤ × ℤ) (detections : List Detection) : List DrawOp :=
  detections.flatMap (draw_one ts)

/-! ## Video pipeline (`VideoProcessor.process_video`, videoprocessor.py 24-146)

The cv2 containers are modelled by their observable behavior: a capture is
its open flag, metadata and the sequence of decodable frames; the writer is
its open flag (`createOk`) and, per write call, whether that call raises.
Wall-clock readings (`time.time()` differences) come from the environment. -/

/-- A Python exception as observed at the `process_video` boundary. -/
inductive PyErr where
  | valueError (msg : String)
  | ioError (msg : String)
  | cvError (msg : String)
deriving DecidableEq, Repr

/-- The four `int(cap.get(...))` properties read at pipeline start
(videoprocessor.py lines 45-48). -/
structure VideoProps where
  fps : ℤ
  width : ℤ
  height : ℤ
  total_frames : ℤ
deriving DecidableEq, Repr

/-- `cv2.VideoCapture(input_path)`: open flag, metadata, and the frames that
`cap.read()` will deliver in order before returning `ret = False`. -/
structure Capture (Frame : Type) where
  isOpened : Bool
  props : VideoProps
  frames : List Frame

/-- The environment of one `process_video` run: the opaque YOLO model call
(per frame, raising = `.error`), the model's class-name table, `frame.shape`,
whether the n-th `out.write` call raises, and the wall-clock readings. -/
structure PVEnv (Frame : Type) where
  detect : Frame → Except String (List RawBox)
  names : ℕ → String
  shapeOf : Frame → ℕ × ℕ × ℕ
  writeRaises : ℕ → Option String
  frameTime : ℕ → ℚ
  elapsed : ℚ

/-- A frame handed to `out.write`: either the decoded frame verbatim (the
`frame_num % frame_skip != 0` path, line 70) or the annotated frame carrying
the drawn detections and the overlay inputs (lines 80-91). -/
inductive OutFrame (Frame : Type) where
  | raw (f : Frame)
  | annotated (f : Frame) (detections : List Detection) (frame_num : ℕ)
      (detection_count : ℕ) (frame_time : ℚ)
deriving DecidableEq, Repr

/-- Acquisition/release state of the two cv2 handles owned by one run. -/
structure Handles where
  cap_acquired : Bool
  cap_released : Bool
  out_acquired : Bool
  out_released : Bool
deriving DecidableEq, Repr

/-- The results dictionary built at lines 119-135; `video_properties` is the
nested dictionary of line 129. -/
structure VideoPropsOut where
  width : ℤ
  height : ℤ
  fps : ℤ
  duration_seconds : ℚ
deriving DecidableEq, Repr

/-- The dictionary returned by `process_video` on success
(videoprocessor.py lines 119-135). -/
structure ProcessingResult where
  input_path : String
  output_path : String
  total_frames : ℤ
  processed_frames : ℕ
  processing_time : ℚ
  avg_frame_time : ℚ
  fps_processed : ℚ
  total_detections : ℕ
  avg_detections_per_frame : ℚ
  video_properties : VideoPropsOut
deriving DecidableEq, Repr

/-- State of the `while True` loop when it stops: either `err = some msg`
(an `out.write` call raised, the exception escapes the loop) or `err = none`
(`ret` became false). The accumulators mirror lines 56-62: `processed_frames`,
`total_detections`, `frame_times`, plus the trace of frames accepted by the
writer, the number of write calls made, and the frame indices on which the
detector was invoked. -/
structure LoopOut (Frame : Type) where
  err : Option String
  processed_frames : ℕ
  total_detections : ℕ
  frame_times : List ℚ
  written : List (OutFrame Frame)
  write_calls : ℕ
  invoked : List ℕ

/-- `out.write(frame)`: a writer that failed to open drops the frame
silently (cv2 semantics); an open writer appends it to the artifact. -/
def out_write {Frame : Type} (createOk : Bool) (written : List (OutFrame Frame))
    (f : OutFrame Frame) : List (OutFrame Frame) :=
  if createOk then written ++ [f] else written

/-- The `while True` frame loop (videoprocessor.py lines 63-107). The source
fixes `frame_skip = 1` in `__init__` (line 22, "set to 2 for every other
frame"); it is a parameter here, assumed positive where claims need it since
`frame_num % 0` raises in Python. Progress logging (lines 99-101) and the
cooperative `asyncio.sleep` (lines 106-107) have no observable effect in
this model and are omitted. -/
def pv_loop {Frame : Type} (env : PVEnv Frame) (frame_skip : ℕ) (createOk : Bool)
    (fs : List Frame) (frame_num processed dets : ℕ) (times : List ℚ)
    (written : List (OutFrame Frame)) (wc : ℕ) (inv : List ℕ) : LoopOut Frame :=
  match fs with
  | [] =>
      { err := none, processed_frames := processed, total_detections := dets,
        frame_times := times, written := written, write_calls := wc, invoked := inv }
  | f :: rest =>
      if frame_num % frame_skip ≠ 0 then
        -- skip path: out.write(frame); frame_num += 1; continue  (lines 69-72)
        match env.writeRaises wc with
        | some msg =>
            { err := some msg, processed_frames := processed, total_detections := dets,
              frame_times := times, written := written, write_calls := wc, invoked := inv }
        | none =>
            pv_loop env frame_skip createOk rest (frame_num + 1) processed dets times
              (out_write createOk written (.raw f)) (wc + 1) inv
      else
        -- detect, annotate, overlay, write, then update metrics (lines 74-103)
        let frame_time := env.frameTime frame_num
        let results := detect_frame env.names (env.shapeOf f) frame_time (env.detect f)
        let annotated := OutFrame.annotated f results.detections frame_num
          results.detections.length frame_time
        match env.writeRaises wc with
        | some msg =>
            -- the write raised after the detector ran, before the metric updates
            { err := some msg, processed_frames := processed, total_detections := dets,
              frame_times := times, written := written, write_calls := wc,
              invoked := inv ++ [frame_num] }
        | none =>
            pv_loop env frame_skip createOk rest (frame_num + 1) (processed + 1)
              (dets + results.detections.length) (times ++ [frame_time])
              (out_write createOk written annotated) (wc + 1) (inv ++ [frame_num])

/-- Everything observable about one `process_video` call: the returned
dictionary or the propagated exception, the handle state at exit, the frames
the writer accepted, the `(fps, (width, height))` the writer was opened with
(`none` if never reached), and the detector-invocation trace. -/
structure PVOutcome (Frame : Type) where
  result : Except PyErr ProcessingResult
  handles : Handles
  written : List (OutFrame Frame)
  writer_open : Option (ℤ × ℤ × ℤ)
  invoked : List ℕ

/-- `VideoProcessor.process_video` (videoprocessor.py lines 24-146).
`createOk` is whether `cv2.VideoWriter` (line 54) actually opened the output
container; the source never checks it. The `except` clause (lines 144-146)
only logs and re-raises: no handle is released on the exception paths, since
`cap.release()` / `out.release()` (lines 110-111) sit after the loop inside
the `try` body. -/
def process_video {Frame : Type} (env : PVEnv Frame) (frame_skip : ℕ)
    (cap : Capture Frame) (createOk : Bool) (input_path output_path : String) :
    PVOutcome Frame :=
  if !cap.isOpened then
    -- raise ValueError(f"Could not open video: {input_path}")  (line 42)
    { result := .error (.valueError ("Could not open video: " ++ input_path))
      handles := { cap_acquired := true, cap_released := false,
                   out_acquired := false, out_released := false }
      written := [], writer_open := none, invoked := [] }
  else
    let fps := cap.props.fps
    let width := cap.props.width
    let height := cap.props.height
    let total_frames := cap.props.total_frames
    let lo := pv_loop env frame_skip createOk cap.frames 0 0 0 [] [] 0 []
    match lo.err with
    | some msg =>
        -- the write error escapes the try body; except re-raises, no cleanup
        { result := .error (.cvError msg)
          handles := { cap_acquired := true, cap_released := false,
                       out_acquired := true, out_released := false }
          written := lo.written, writer_open := some (fps, width, height),
          invoked := lo.invoked }
    | none =>
        -- cap.release(); out.release(); build the results dictionary
        let processing_time := env.elapsed
        { result := .ok {
            input_path := input_path
            output_path := output_path
            total_frames := total_frames
            processed_frames := lo.processed_frames
            processing_time := processing_time
            avg_frame_time :=
              if lo.frame_times.isEmpty then 0
              else lo.frame_times.sum / (lo.frame_times.length : ℚ)
            fps_processed :=
              if processing_time > 0 then (lo.processed_frames : ℚ) / processing_time
              else 0
            total_detections := lo.total_detections
            avg_detections_per_frame :=
              if lo.processed_frames > 0 then
                (lo.total_detections : ℚ) / (lo.processed_frames : ℚ)
              else 0
            video_properties := {
              width := width, height := height, fps := fps
              duration_seconds :=
                if fps > 0 then (total_frames : ℚ) / (fps : ℚ) else 0 } }
          handles := { cap_acquired := true, cap_released := true,
                       out_acquired := true, out_released := true }
          written := lo.written, writer_open := some (fps, width, height),
          invoked := lo.invoked }

/-! ## Upload validation (`detect_objects_video`, main.py 107-145) -/

/-- The allowed-suffix tuple of `file.filename.lower().endswith((...))`
(main.py line 116). -/
def allowed_video_suffixes : List String := [".mp4", ".avi", ".mov", ".mkv"]

/-- The format check of main.py line 116: the lowercased filename must end
with one of the allowed suffixes. -/
def valid_video_filename (filename : String) : Bool :=
  allowed_video_suffixes.any (fun suf => filename.toLower.endsWith suf)

/-- Outcome of the `/detect/video` handler: `httpError` is an HTTPException
raised before anything is persisted or scheduled; `accepted` means the upload
was written to `input_path` and the background job scheduled. -/
inductive SubmitOutcome where
  | httpError (status_code : ℕ) (detail : String)
  | accepted (job_id : ℕ) (input_path : String) (output_path : String)
      (status_url : String)
deriving DecidableEq, Repr

/-- `detect_objects_video` (main.py lines 107-145): model-loaded guard,
format validation, then persist under `{timestamp}_{filename}` and schedule
`process_video_background`. -/
def detect_objects_video (model_loaded : Bool) (timestamp : ℕ)
    (filename : String) : SubmitOutcome :=
  if !model_loaded then .httpError 503 "Model not loaded"
  else if !valid_video_filename filename then .httpError 400 "Invalid video format"
  else
    .accepted timestamp
      ("app/static/uploads/" ++ toString timestamp ++ "_" ++ filename)
      ("app/static/outputs/" ++ toString timestamp ++ "_processed_" ++ filename)
      ("/status/" ++ toString timestamp)

/-! ## Loop characterization

Recursive descriptions of what the loop accumulates over a frame list when
no write call raises, and the lemma tying `pv_loop` to them. -/

/-- The frame written for each decoded frame, in order, starting the index
count at `n`: the raw frame on the skip path, the annotated frame otherwise. -/
def emitted {Frame : Type} (env : PVEnv Frame) (skip : ℕ) :
    ℕ → List Frame → List (OutFrame Frame)
  | _, [] => []
  | n, f :: rest =>
      (if n % skip ≠ 0 then OutFrame.raw f
       else
         let frame_time := env.frameTime n
         let results := detect_frame env.names (env.shapeOf f) frame_time (env.detect f)
         OutFrame.annotated f results.detections n results.detections.length frame_time)
        :: emitted env skip (n + 1) rest

/-- Total detections accumulated over a frame list starting at index `n`. -/
def loop_dets {Frame : Type} (env : PVEnv Frame) (skip : ℕ) : ℕ → List Frame → ℕ
  | _, [] => 0
  | n, f :: rest =>
      (if n % skip ≠ 0 then 0
       else (detect_frame env.names (env.shapeOf f) (env.frameTime n)
              (env.detect f)).detections.length)
      + loop_dets env skip (n + 1) rest

/-- Per-frame times accumulated over a frame list starting at index `n`. -/
def loop_times {Frame : Type} (env : PVEnv Frame) (skip : ℕ) : ℕ → List Frame → List ℚ
  | _, [] => []
  | n, f :: rest =>
      (if n % skip ≠ 0 then ([] : List ℚ) else [env.frameTime n])
        ++ loop_times env skip (n + 1) rest

/-- Whether a `process_video` call returned a results dictionary (rather
than raising). -/
def returns_ok {Frame : Type} (o : PVOutcome Frame) : Bool :=
  match o.result with
  | .ok _ => true
  | .error _ => false

/-! ## Concrete fixtures (used to evaluate the model at explicit inputs) -/

/-- A class-name table agreeing with the COCO names the source relies on. -/
def names0 : ℕ → String :=
  fun c => if c = 0 then "person" else if c = 32 then "sports ball" else "other"

/-- A benign run environment over `Frame := ℕ`: the model reports no boxes,
no write call raises. -/
def envA : PVEnv ℕ :=
  { detect := fun _ => .ok []
    names := names0
    shapeOf := fun _ => (480, 640, 3)
    writeRaises := fun _ => none
    frameTime := fun _ => 0
    elapsed := 1 }

/-- A 3-frame 640×480\@30fps input container. -/
def capA : Capture ℕ :=
  { isOpened := true
    props := { fps := 30, width := 640, height := 480, total_frames := 3 }
    frames := [10, 11, 12] }

/-- An environment whose third `out.write` call raises (a fatal mid-loop
I/O error such as a full disk). -/
def envB : PVEnv ℕ :=
  { detect := fun _ => .ok []
    names := names0
    shapeOf := fun _ => (480, 640, 3)
    writeRaises := fun k => if k = 2 then some "disk full" else none
    frameTime := fun _ => 0
    elapsed := 1 }

/-- An environment whose model call raises on (poisons) frame `11` only. -/
def envC : PVEnv ℕ :=
  { detect := fun f => if f = 11 then .error "model exploded" else .ok []
    names := names0
    shapeOf := fun _ => (480, 640, 3)
    writeRaises := fun _ => none
    frameTime := fun _ => 0
    elapsed := 1 }

/-- A 2-frame input container. -/
def capC : Capture ℕ :=
  { isOpened := true
    props := { fps := 30, width := 640, height := 480, total_frames := 2 }
    frames := [10, 11] }

/-- An unopenable input (`cap.isOpened()` false). -/
def capD : Capture ℕ :=
  { isOpened := false
    props := { fps := 0, width := 0, height := 0, total_frames := 0 }
    frames := [] }

/-- A raw person box of area 100·60 = 6000. -/
def box0 : RawBox := { x1 := 0, y1 := 0, x2 := 100, y2 := 60, conf := 9/10, cls_id := 0 }

/-- The detection `detect_frame` extracts from `box0`. -/
def det0 : Detection :=
  { id := 0, class_name := "person", class_id := 0, confidence := 9/10
    bbox := (0, 0, 100, 60), center := (50, 30), area := 6000
    sports_role := some "player" }

/-- The results dictionary of a completed zero-detection run over `capA`
with stride 1 (as produced by `envA` or `envC`). -/
def prA : ProcessingResult :=
  { input_path := "in.mp4", output_path := "out.mp4", total_frames := 3
    processed_frames := 3, processing_time := 1, avg_frame_time := 0
    fps_processed := 3, total_detections := 0, avg_detections_per_frame := 0
    video_properties :=
      { width := 640, height := 480, fps := 30, duration_seconds := 1/10 } }

/-- The results dictionary of a completed zero-detection run over `capA`
with stride 2. -/
def prA2 : ProcessingResult :=
  { input_path := "in.mp4", output_path := "out.mp4", total_frames := 3
    processed_frames := 2, processing_time := 1, avg_frame_time := 0
    fps_processed := 2, total_detections := 0, avg_detections_per_frame := 0
    video_properties :=
      { width := 640, height := 480, fps := 30, duration_seconds := 1/10 } }

/-- Constant font metrics: every label measures 50×12 px. -/
def ts0 : String → ℤ × ℤ := fun _ => (50, 12)

/-- A small person detection whose box top sits at the frame top (y1 = 0). -/
def det0cex : Detection :=
  { id := 0, class_name := "person", class_id := 0, confidence := 9/10
    bbox := (7, 0, 30, 40), center := (37/2, 20), area := 920
    sports_role := some "spectator_or_other" }

theorem emitted_length {Frame : Type} (env : PVEnv Frame) (skip : ℕ) :
    ∀ (fs : List Frame) (n : ℕ), (emitted env skip n fs).length = fs.length := by
  intro fs
  induction fs with
  | nil => intro n; simp [emitted]
  | cons f rest ih => intro n; simp [emitted, ih]

theorem emitted_getElem?_raw {Frame : Type} (env : PVEnv Frame) (skip : ℕ) :
    ∀ (fs : List Frame) (n i : ℕ) (f : Frame), fs[i]? = some f →
      (n + i) % skip ≠ 0 → (emitted env skip n fs)[i]? = some (.raw f) := by
  intro fs
  induction fs with
  | nil => intro n i f h; simp at h
  | cons g rest ih =>
    intro n i f h hmod
    cases i with
    | zero =>
      simp at h
      subst h
      simp at hmod
      simp [emitted, hmod]
    | succ j =>
      simp at h
      have harg : n + 1 + j = n + (j + 1) := by omega
      have := ih (n + 1) j f h (by rw [harg]; exact hmod)
      simp [emitted, this]

theorem emitted_getElem?_detect {Frame : Type} (env : PVEnv Frame) (skip : ℕ) :
    ∀ (fs : List Frame) (n i : ℕ) (f : Frame), fs[i]? = some f →
      (n + i) % skip = 0 →
      (emitted env skip n fs)[i]? = some (.annotated f
        (detect_frame env.names (env.shapeOf f) (env.frameTime (n + i))
          (env.detect f)).detections (n + i)
        (detect_frame env.names (env.shapeOf f) (env.frameTime (n + i))
          (env.detect f)).detections.length (env.frameTime (n + i))) := by
  intro fs
  induction fs with
  | nil => intro n i f h; simp at h
  | cons g rest ih =>
    intro n i f h hmod
    cases i with
    | zero =>
      simp at h
      subst h
      simp at hmod
      simp [emitted, hmod]
    | succ j =>
      simp at h
      have harg : n + 1 + j = n + (j + 1) := by omega
      have := ih (n + 1) j f h (by rw [harg]; exact hmod)
      rw [harg] at this
      simp [emitted, this]

/-- Full characterization of the frame loop when no `out.write` call raises:
it terminates normally with the accumulators described by `emitted`,
`loop_dets`, `loop_times` and the stride filter. -/
theorem pv_loop_no_write_fail {Frame : Type} (env : PVEnv Frame) (skip : ℕ)
    (createOk : Bool) (hw : ∀ k, env.writeRaises k = none) :
    ∀ (fs : List Frame) (n p d wc : ℕ) (ts : List ℚ)
      (w : List (OutFrame Frame)) (inv : List ℕ),
    pv_loop env skip createOk fs n p d ts w wc inv =
      { err := none
        processed_frames :=
          p + ((List.range' n fs.length).filter (fun i => i % skip = 0)).length
        total_detections := d + loop_dets env skip n fs
        frame_times := ts ++ loop_times env skip n fs
        written := w ++ (if createOk then emitted env skip n fs else [])
        write_calls := wc + fs.length
        invoked := inv ++ (List.range' n fs.length).filter (fun i => i % skip = 0) } := by
  intro fs
  induction fs with
  | nil =>
    intro n p d wc ts w inv
    cases createOk <;> simp [pv_loop, emitted, loop_dets, loop_times]
  | cons f rest ih =>
    intro n p d wc ts w inv
    by_cases hmod : n % skip = 0
    · rw [pv_loop]
      simp only [hmod, ne_eq, not_true_eq_false, if_false, hw wc]
      rw [ih]
      simp only [List.range', List.filter_cons, hmod, if_true,
        emitted, loop_dets, loop_times, out_write, List.length_cons]
      cases createOk <;>
        simp [List.append_assoc, LoopOut.mk.injEq, hmod] <;> omega
    · rw [pv_loop]
      simp only [hmod, ne_eq, not_false_eq_true, if_true, hw wc]
      rw [ih]
      simp only [List.range', List.filter_cons, hmod, if_false,
        emitted, loop_dets, loop_times, out_write, List.length_cons]
      cases createOk <;>
        simp [List.append_assoc, LoopOut.mk.injEq, hmod] <;> omega

/-! ## Claim theorems -/

/-- C1: for every input video with N decodable frames at width W, height H
and fps F, and every positive frameSkip, `process_video` writes exactly N
frames to the output, and the output stream is opened with the same W, H and
F read from the input (skipped frames are written, not dropped). -/
theorem process_video_preserves_frame_count {Frame : Type} (env : PVEnv Frame)
    (frame_skip : ℕ) (cap : Capture Frame) (input_path output_path : String)
    (hopen : cap.isOpened = true) (hskip : 0 < frame_skip)
    (hw : ∀ k, env.writeRaises k = none) :
    (process_video env frame_skip cap true input_path output_path).written.length
        = cap.frames.length ∧
    (process_video env frame_skip cap true input_path output_path).writer_open
        = some (cap.props.fps, cap.props.width, cap.props.height) := by
  unfold process_video
  rw [pv_loop_no_write_fail env frame_skip true hw]
  simp [hopen, emitted_length]

/-- C1 witness: a 3-frame 640×480\@30fps video yields 3 written frames and a
writer opened at (30, 640, 480). -/
theorem process_video_preserves_frame_count_witness :
    (process_video envA 1 capA true "in.mp4" "out.mp4").written.length = 3 ∧
    (process_video envA 1 capA true "in.mp4" "out.mp4").writer_open
        = some (30, 640, 480) := by
  have h := process_video_preserves_frame_count envA 1 capA "in.mp4" "out.mp4"
    rfl (by decide) (fun _ => rfl)
  simpa [capA] using h

/-- C2: with stride k, the detector runs on frame i exactly when i % k = 0;
every other frame is written verbatim (unannotated), and the processed-frame
counter counts only the detected frames. -/
theorem process_video_frame_skip_selects {Frame : Type} (env : PVEnv Frame)
    (frame_skip : ℕ) (cap : Capture Frame) (input_path output_path : String)
    (hopen : cap.isOpened = true) (hskip : 0 < frame_skip)
    (hw : ∀ k, env.writeRaises k = none) :
    (∀ i, i ∈ (process_video env frame_skip cap true input_path output_path).invoked
        ↔ i < cap.frames.length ∧ i % frame_skip = 0) ∧
    (∀ i f, i % frame_skip ≠ 0 → cap.frames[i]? = some f →
        (process_video env frame_skip cap true input_path output_path).written[i]?
          = some (.raw f)) ∧
    (∃ r, (process_video env frame_skip cap true input_path output_path).result
            = .ok r ∧
          r.processed_frames = ((List.range cap.frames.length).filter
            (fun i => i % frame_skip = 0)).length) := by
  unfold process_video
  rw [pv_loop_no_write_fail env frame_skip true hw]
  simp only [hopen, Bool.not_true, Bool.false_eq_true, if_false, List.nil_append]
  refine ⟨?_, ?_, ?_⟩
  · intro i
    simp [List.mem_filter, List.range_eq_range', List.mem_range'_1]
  · intro i f hi hf
    simpa using emitted_getElem?_raw env frame_skip cap.frames 0 i f hf
      (by simpa using hi)
  · exact ⟨_, rfl, by simp [List.range_eq_range']⟩

/-- C2 witness: with stride 2 on a 3-frame video, the detector runs exactly
on frames 0 and 2, frame 1 is written raw, and two frames count as
processed. -/
theorem process_video_frame_skip_selects_witness :
    (1 ∈ (process_video envA 2 capA true "in.mp4" "out.mp4").invoked
        ↔ 1 < 3 ∧ 1 % 2 = 0) ∧
    (process_video envA 2 capA true "in.mp4" "out.mp4").written[1]?
        = some (.raw 11) ∧
    (process_video envA 2 capA true "in.mp4" "out.mp4").result = .ok prA2 ∧
    prA2.processed_frames = ((List.range 3).filter (fun i => i % 2 = 0)).length := by
  have h := process_video_frame_skip_selects envA 2 capA "in.mp4" "out.mp4"
    rfl (by decide) (fun _ => rfl)
  have hres : (process_video envA 2 capA true "in.mp4" "out.mp4").result
      = .ok prA2 := by with_unfolding_all rfl
  obtain ⟨r, hr, hpr⟩ := h.2.2
  rw [hres] at hr
  injection hr with hr
  refine ⟨by simpa [capA] using h.1 1,
          h.2.1 1 11 (by decide) (by simp [capA]), hres, ?_⟩
  rw [hr]
  simpa [capA] using hpr

/-- C3: a detection failure on one frame does not abort the job: if the model
call raises on the frame at index j, `process_video` still completes, the
output covers all frames, and (when j is a detected index) the written frame
for j carries zero detections. -/
theorem process_video_poisoned_frame {Frame : Type} (env : PVEnv Frame)
    (frame_skip : ℕ) (cap : Capture Frame) (input_path output_path : String)
    (j : ℕ) (pf : Frame) (msg : String)
    (hopen : cap.isOpened = true) (hskip : 0 < frame_skip)
    (hw : ∀ k, env.writeRaises k = none)
    (hj : cap.frames[j]? = some pf) (hpois : env.detect pf = .error msg) :
    (∃ r, (process_video env frame_skip cap true input_path output_path).result
        = .ok r) ∧
    (process_video env frame_skip cap true input_path output_path).written.length
        = cap.frames.length ∧
    (j % frame_skip = 0 →
      (process_video env frame_skip cap true input_path output_path).written[j]?
        = some (.annotated pf [] j 0 (env.frameTime j))) := by
  unfold process_video
  rw [pv_loop_no_write_fail env frame_skip true hw]
  simp only [hopen, Bool.not_true, Bool.false_eq_true, if_false, List.nil_append]
  refine ⟨⟨_, rfl⟩, by simp [emitted_length], ?_⟩
  intro hjmod
  have h := emitted_getElem?_detect env frame_skip cap.frames 0 j pf hj
    (by simpa using hjmod)
  simp only [Nat.zero_add] at h
  rw [hpois] at h
  simpa [detect_frame] using h

/-- C3 witness: the model raises on frame index 1 of a 3-frame video; the run
still returns a result, writes 3 frames, and frame 1 is annotated with zero
detections. -/
theorem process_video_poisoned_frame_witness :
    (process_video envC 1 capA true "in.mp4" "out.mp4").result = .ok prA ∧
    (process_video envC 1 capA true "in.mp4" "out.mp4").written.length = 3 ∧
    (process_video envC 1 capA true "in.mp4" "out.mp4").written[1]?
        = some (.annotated 11 [] 1 0 0) := by
  have h := process_video_poisoned_frame envC 1 capA "in.mp4" "out.mp4" 1 11
    "model exploded" rfl (by decide) (fun _ => rfl) (by simp [capA]) rfl
  obtain ⟨r, hr⟩ := h.1
  exact ⟨by with_unfolding_all rfl, by simpa [capA] using h.2.1, by simpa [envC] using h.2.2 (by decide)⟩

/-- C4: the claim requires both handles released on every exit path, but the
code releases them only after a normal loop exit: when the third write call
raises mid-loop, the exception propagates from the bare re-raise in the
`except` clause with neither `cap.release()` nor `out.release()` executed.
This theorem evaluates the embedded code at that failing input. -/
theorem process_video_write_error_leaks_handles :
    (process_video envB 1 capA true "in.mp4" "out.mp4").result
        = .error (.cvError "disk full") ∧
    (process_video envB 1 capA true "in.mp4" "out.mp4").handles
        = { cap_acquired := true, cap_released := false,
            out_acquired := true, out_released := false } := by
  constructor <;> rfl

/-- C5 counterexample: when the output container cannot be created
(`createOk = false`), `process_video` does not fail with any error at all —
it returns a full `ProcessingResult` while the artifact receives no frames.
The claim "fails with an IOError when the output container cannot be
created; no ProcessingResult is returned" is therefore false. -/
theorem process_video_writer_failure_cex :
    returns_ok (process_video envA 1 capC false "in.mp4" "out.mp4") = true ∧
    (process_video envA 1 capC false "in.mp4" "out.mp4").written = [] := by
  constructor <;> rfl

/-- C5 amended: when the input cannot be opened, `process_video` raises
`ValueError` (not `IOError`) mentioning the input path; when the output
container cannot be created, no error is raised and a `ProcessingResult` is
still returned. -/
theorem process_video_failure_modes {Frame : Type} (env : PVEnv Frame)
    (frame_skip : ℕ) (cap : Capture Frame) (createOk : Bool)
    (input_path output_path : String) :
    (cap.isOpened = false →
      (process_video env frame_skip cap createOk input_path output_path).result
        = .error (.valueError ("Could not open video: " ++ input_path))) ∧
    (cap.isOpened = true → (∀ k, env.writeRaises k = none) →
      returns_ok (process_video env frame_skip cap false input_path output_path)
        = true) := by
  constructor
  · intro h
    unfold process_video
    simp [h]
  · intro h hw
    unfold process_video returns_ok
    rw [pv_loop_no_write_fail env frame_skip false hw]
    simp [h]

/-- C5 amended witness: an unopenable input raises the ValueError, and a
writer-creation failure still produces a returned result. -/
theorem process_video_failure_modes_witness :
    (process_video envA 1 capD true "in.mp4" "out.mp4").result
        = .error (.valueError "Could not open video: in.mp4") ∧
    returns_ok (process_video envA 1 capC false "in.mp4" "out.mp4") = true := by
  exact ⟨(process_video_failure_modes envA 1 capD true "in.mp4" "out.mp4").1 rfl,
         (process_video_failure_modes envA 1 capC true "in.mp4" "out.mp4").2
           rfl (fun _ => rfl)⟩

/-- C6: in every returned results dictionary, `avg_detections_per_frame`
equals `total_detections / processed_frames` when `processed_frames > 0`,
and 0 otherwise (no division by zero occurs). -/
theorem avg_detections_per_frame_spec {Frame : Type} (env : PVEnv Frame)
    (frame_skip : ℕ) (cap : Capture Frame) (createOk : Bool)
    (input_path output_path : String) (r : ProcessingResult)
    (h : (process_video env frame_skip cap createOk input_path output_path).result
        = .ok r) :
    r.avg_detections_per_frame =
      if 0 < r.processed_frames then
        (r.total_detections : ℚ) / (r.processed_frames : ℚ)
      else 0 := by
  unfold process_video at h
  by_cases ho : cap.isOpened
  · simp only [ho, Bool.not_true, Bool.false_eq_true, if_false] at h
    rcases herr : (pv_loop env frame_skip createOk cap.frames 0 0 0 [] [] 0 []).err
      with _ | msg
    · rw [herr] at h
      simp only [Except.ok.injEq] at h
      subst h
      rfl
    · rw [herr] at h
      simp at h
  · simp [ho] at h

/-- C6 witness: a completed run over `capA` satisfies the average formula. -/
theorem avg_detections_per_frame_spec_witness :
    (process_video envA 1 capA true "in.mp4" "out.mp4").result = .ok prA ∧
    prA.avg_detections_per_frame =
      if 0 < prA.processed_frames then
        (prA.total_detections : ℚ) / (prA.processed_frames : ℚ)
      else 0 := by
  have hres : (process_video envA 1 capA true "in.mp4" "out.mp4").result
      = .ok prA := by with_unfolding_all rfl
  exact ⟨hres,
    avg_detections_per_frame_spec envA 1 capA true "in.mp4" "out.mp4" prA hres⟩

/-- Threshold behavior of `_classify_person_role`. -/
theorem _classify_person_role_spec (d : Detection) :
    (5000 < d.area → _classify_person_role d = "player") ∧
    (2000 < d.area → d.area ≤ 5000 → _classify_person_role d = "referee_or_coach") ∧
    (d.area ≤ 2000 → _classify_person_role d = "spectator_or_other") := by
  unfold _classify_person_role
  refine ⟨fun h => ?_, fun h h2 => ?_, fun h => ?_⟩
  · rw [if_pos h]
  · rw [if_neg (by simpa using h2), if_pos h]
  · rw [if_neg (by intro hc; simp at hc; linarith),
        if_neg (by intro hc; simp at hc; linarith)]

/-- C7: every detection's role tag is computed purely from its area: a person
(class 0) with area > 5000 is "player", with 2000 < area ≤ 5000 is
"referee_or_coach", otherwise "spectator_or_other"; a ball (class 32) is
always "ball". -/
theorem detection_role_thresholds (names : ℕ → String) (shape : ℕ × ℕ × ℕ)
    (t : ℚ) (modelOut : Except String (List RawBox)) (d : Detection)
    (hd : d ∈ (detect_frame names shape t modelOut).detections) :
    (d.class_id = 0 → 5000 < d.area → d.sports_role = some "player") ∧
    (d.class_id = 0 → 2000 < d.area → d.area ≤ 5000 →
      d.sports_role = some "referee_or_coach") ∧
    (d.class_id = 0 → d.area ≤ 2000 →
      d.sports_role = some "spectator_or_other") ∧
    (d.class_id = 32 → d.sports_role = some "ball") := by
  cases modelOut with
  | error e => simp [detect_frame] at hd
  | ok boxes =>
    simp only [detect_frame, extract_detections, List.mem_filterMap] at hd
    obtain ⟨⟨i, b⟩, _, hdet⟩ := hd
    unfold detect_one at hdet
    by_cases hs : is_sports_class b.cls_id
    · rw [if_pos hs] at hdet
      by_cases h0 : b.cls_id = 0
      · simp only [h0, beq_self_eq_true, if_true, Option.some.injEq] at hdet
        subst hdet
        have hcl := _classify_person_role_spec (mkDetection names i b)
        refine ⟨fun _ h => ?_, fun _ h h2 => ?_, fun _ h => ?_, fun h32 => ?_⟩
        · exact congrArg some (hcl.1 h)
        · exact congrArg some (hcl.2.1 h h2)
        · exact congrArg some (hcl.2.2 h)
        · exact absurd (show b.cls_id = 32 from h32) (by omega)
      · simp only [show (b.cls_id == 0) = false by simpa using h0,
          Bool.false_eq_true, if_false] at hdet
        by_cases h32 : b.cls_id = 32
        · simp only [h32, beq_self_eq_true, if_true, Option.some.injEq] at hdet
          subst hdet
          exact ⟨fun hc _ => absurd (show b.cls_id = 0 from hc) h0,
                 fun hc _ _ => absurd (show b.cls_id = 0 from hc) h0,
                 fun hc _ => absurd (show b.cls_id = 0 from hc) h0,
                 fun _ => rfl⟩
        · simp only [show (b.cls_id == 32) = false by simpa using h32,
            Bool.false_eq_true, if_false, Option.some.injEq] at hdet
          subst hdet
          exact ⟨fun hc _ => absurd (show b.cls_id = 0 from hc) h0,
                 fun hc _ _ => absurd (show b.cls_id = 0 from hc) h0,
                 fun hc _ => absurd (show b.cls_id = 0 from hc) h0,
                 fun hc => absurd (show b.cls_id = 32 from hc) h32⟩
    · rw [if_neg hs] at hdet
      exact absurd hdet (by simp)

/-- C7 witness: a person box of area 6000 is extracted with role "player". -/
theorem detection_role_thresholds_witness :
    det0 ∈ (detect_frame names0 (480, 640, 3) 0 (Except.ok [box0])).detections ∧
    (5000 : ℚ) < det0.area ∧ det0.sports_role = some "player" := by
  have hdets : (detect_frame names0 (480, 640, 3) 0
      (Except.ok [box0])).detections = [det0] := by with_unfolding_all rfl
  have hmem : det0 ∈ (detect_frame names0 (480, 640, 3) 0
      (Except.ok [box0])).detections := by
    rw [hdets]; exact List.mem_singleton.mpr rfl
  have h := detection_role_thresholds names0 (480, 640, 3) 0 (Except.ok [box0])
    det0 hmem
  exact ⟨hmem, by norm_num [det0], h.1 rfl (by norm_num [det0])⟩

/-- C8 counterexample: for a detection whose box top sits at the frame top
(y1 = 0) and a 12px-tall label, the filled label-background rectangle issued
by `draw_detections` has its top corner at y = -5, i.e. 5 pixels above the
frame top — the claim that no drawn pixel of the label or its background
lies above the frame top is false. -/
theorem annotator_bg_above_frame_top_cex :
    label_bg_top_y ts0 det0cex = -5 ∧
    DrawOp.rect (7, -5) (57, 17) (0, 255, 0) (-1) ∈ draw_detections ts0 [det0cex] := by
  constructor
  · with_unfolding_all rfl
  · have : draw_detections ts0 [det0cex] =
        [DrawOp.rect (7, 0) (30, 40) (0, 255, 0) 2,
         DrawOp.rect (7, -5) (57, 17) (0, 255, 0) (-1),
         DrawOp.text (detection_label det0cex) (7, 12) (255, 255, 255)] := by
      with_unfolding_all rfl
    rw [this]
    simp

/-- C8 amended: the label text itself is clamped so it is never drawn above
the frame top (its top row is at y ≥ 0), but the filled background rectangle
extends 5 pixels above the text and so can protrude up to 5 pixels above the
frame top (its top edge satisfies y ≥ -5, with -5 attained); for every
detection drawn, `draw_detections` issues exactly the bounding-box rectangle,
this background rectangle and the label text. -/
theorem annotator_label_clamping (ts : String → ℤ × ℤ) (dets : List Detection)
    (d : Detection) (hd : d ∈ dets) :
    0 ≤ label_text_top_y ts d ∧
    -5 ≤ label_bg_top_y ts d ∧
    DrawOp.rect (pyInt d.bbox.1, label_bg_top_y ts d)
        (pyInt d.bbox.1 + (ts (detection_label d)).1, label_baseline_y ts d + 5)
        (colors d.class_name) (-1) ∈ draw_detections ts dets ∧
    DrawOp.text (detection_label d) (pyInt d.bbox.1, label_baseline_y ts d)
        (255, 255, 255) ∈ draw_detections ts dets := by
  have htop : 0 ≤ label_text_top_y ts d := by
    unfold label_text_top_y label_baseline_y
    omega
  have hbg : -5 ≤ label_bg_top_y ts d := by
    unfold label_bg_top_y label_baseline_y
    omega
  refine ⟨htop, hbg, ?_, ?_⟩ <;>
  · rw [draw_detections, List.mem_flatMap]
    refine ⟨d, hd, ?_⟩
    unfold draw_one
    simp

/-- C8 amended witness: instantiated at the concrete detection and metrics of
the counterexample configuration. -/
theorem annotator_label_clamping_witness :
    0 ≤ label_text_top_y ts0 det0cex ∧
    -5 ≤ label_bg_top_y ts0 det0cex ∧
    DrawOp.rect (pyInt det0cex.bbox.1, label_bg_top_y ts0 det0cex)
        (pyInt det0cex.bbox.1 + (ts0 (detection_label det0cex)).1,
          label_baseline_y ts0 det0cex + 5)
        (colors det0cex.class_name) (-1) ∈ draw_detections ts0 [det0cex] ∧
    DrawOp.text (detection_label det0cex)
        (pyInt det0cex.bbox.1, label_baseline_y ts0 det0cex)
        (255, 255, 255) ∈ draw_detections ts0 [det0cex] :=
  annotator_label_clamping ts0 [det0cex] det0cex (List.mem_singleton.mpr rfl)

/-- C9: a submitted filename whose lowercased form does not end in .mp4,
.avi, .mov or .mkv is rejected with HTTP 400 before the upload is persisted
or a job created; a filename with an allowed extension passes the check and
the upload is persisted and the job scheduled. -/
theorem upload_format_validation (timestamp : ℕ) (filename : String) :
    (valid_video_filename filename = false →
      detect_objects_video true timestamp filename
        = .httpError 400 "Invalid video format") ∧
    (valid_video_filename filename = true →
      detect_objects_video true timestamp filename
        = .accepted timestamp
            ("app/static/uploads/" ++ toString timestamp ++ "_" ++ filename)
            ("app/static/outputs/" ++ toString timestamp ++ "_processed_"
              ++ filename)
            ("/status/" ++ toString timestamp)) := by
  constructor <;> intro h <;> simp [detect_objects_video, h]

/-- C9 witness: `clip.txt` is rejected with no job created; `clip.MP4`
(case-insensitive match) is accepted and persisted. -/
theorem upload_format_validation_witness :
    detect_objects_video true 5 "clip.txt" = .httpError 400 "Invalid video format" ∧
    detect_objects_video true 5 "clip.MP4"
      = .accepted 5 "app/static/uploads/5_clip.MP4"
          "app/static/outputs/5_processed_clip.MP4" "/status/5" := by
  constructor
  · exact (upload_format_validation 5 "clip.txt").1 (by with_unfolding_all rfl)
  · have h := (upload_format_validation 5 "clip.MP4").2 (by with_unfolding_all rfl)
    simpa using h

/-- C10: `detect_frame` is total at its public interface — it returns a
dictionary for every model outcome; on an internal failure the dictionary has
an empty `detections` list and carries the `error` key, and on success it
carries `detections`, `inference_time`, `frame_shape` and
`model_confidence` with no `error` key. -/
theorem detect_frame_total_interface (names : ℕ → String) (shape : ℕ × ℕ × ℕ)
    (t : ℚ) (modelOut : Except String (List RawBox)) :
    (∀ e, modelOut = .error e →
      (detect_frame names shape t modelOut).detections = [] ∧
      (detect_frame names shape t modelOut).error = some e ∧
      (detect_frame names shape t modelOut).inference_time = t) ∧
    (∀ boxes, modelOut = .ok boxes →
      (detect_frame names shape t modelOut).error = none ∧
      (detect_frame names shape t modelOut).detections
          = extract_detections names boxes ∧
      (detect_frame names shape t modelOut).inference_time = t ∧
      (detect_frame names shape t modelOut).frame_shape = some shape ∧
      (detect_frame names shape t modelOut).model_confidence
          = some confidence_threshold) := by
  constructor <;> rintro x rfl <;> simp [detect_frame]

/-- C10 witness: instantiated at a raising model call and at a successful
empty model result. -/
theorem detect_frame_total_interface_witness :
    ((detect_frame names0 (480, 640, 3) 0 (.error "boom")).detections = [] ∧
      (detect_frame names0 (480, 640, 3) 0 (.error "boom")).error = some "boom" ∧
      (detect_frame names0 (480, 640, 3) 0 (.error "boom")).inference_time = 0) ∧
    ((detect_frame names0 (480, 640, 3) 0 (.ok [])).error = none ∧
      (detect_frame names0 (480, 640, 3) 0 (.ok [])).detections
          = extract_detections names0 [] ∧
      (detect_frame names0 (480, 640, 3) 0 (.ok [])).inference_time = 0 ∧
      (detect_frame names0 (480, 640, 3) 0 (.ok [])).frame_shape
          = some (480, 640, 3) ∧
      (detect_frame names0 (480, 640, 3) 0 (.ok [])).model_confidence
          = some confidence_threshold) :=
  ⟨(detect_frame_total_interface names0 (480, 640, 3) 0 (.error "boom")).1
      "boom" rfl,
   (detect_frame_total_interface names0 (480, 640, 3) 0 (.ok [])).2 [] rfl⟩

end SportYolo
